import Mathlib

set_option maxRecDepth 8000

/-!
# Verification of the Task Progress & Lifecycle Engine (deep-vision, src/web/app.js)

Shallow embedding of the progress/lifecycle engine of `src/web/app.js`:
the report-generation feedback state (fields `reportGeneration*`), the
presentation-generation feedback state (fields `presentation*`), the
progress estimator `estimatePresentationProgressFromRefly`, the smoothing
tickers, the pollers, and the recovery path `fetchPresentationStatus`.

Modelling conventions:
- JS numbers are modelled as `ℚ` (progress values) or `ℤ` (timestamps,
  durations, counters).  `Math.round` is `jsRound`, `Math.min`/`Math.max`
  are `min`/`max`.
- `Date.now()` is an explicit parameter `now : ℤ`.
- `parseValidTimestamp` receives the already-parsed `new Date(x).getTime()`
  value as an `Option ℤ` (`none` models a non-finite parse) and returns `0`
  for it, exactly as the source does.
- JS string falsiness (`s || t`) is modelled as `if s ≠ "" then s else t`;
  numeric falsiness (`x || y`) as a test against `0` where the source
  relies on it.
- Timer handles (`setInterval`/`clearInterval`) are modelled as `Bool`
  fields recording whether the timer is installed.
- `trim().toLowerCase()` is `lowerTrim` (ASCII lower-casing, whitespace
  trimming, applied to the character list of the string).
-/

namespace DeepVision

/-- JS `Math.round` on exact rationals: round half toward positive infinity. -/
def jsRound (q : ℚ) : ℤ := ⌊q + 1/2⌋

/-- Clamp a rational to the interval used all over the source:
`Math.max(0, Math.min(100, x))`. -/
def clamp100 (q : ℚ) : ℚ := max 0 (min 100 q)

/-- Model of `parseValidTimestamp` (app.js:1543): the argument is the value
of `new Date(dateStr).getTime()` (`none` when that is `NaN`); the function
returns it when finite and `0` otherwise. -/
def parseValidTimestamp : Option ℤ → ℤ
  | none => 0
  | some t => t

/-- Character-list equality of a leading segment (helper for the substring
test used to model JS `String.prototype.includes`). -/
def listLeadEq : List Char → List Char → Bool
  | [], _ => true
  | _ :: _, [] => false
  | a :: as, b :: bs => a == b && listLeadEq as bs

/-- Substring occurrence test on character lists (helper for `strIncludes`). -/
def listHasSub (sub : List Char) : List Char → Bool
  | [] => listLeadEq sub []
  | c :: rest => listLeadEq sub (c :: rest) || listHasSub sub rest

/-- Model of JS `text.includes(sub)`. -/
def strIncludes (text sub : String) : Bool := listHasSub sub.data text.data

/-- Model of JS `s.trim()` over the character list of the string. -/
def jsTrim (s : String) : String :=
  ⟨((s.data.dropWhile Char.isWhitespace).reverse.dropWhile Char.isWhitespace).reverse⟩

/-- Model of JS `s.trim().toLowerCase()` (ASCII case folding). -/
def lowerTrim (s : String) : String :=
  ⟨(((s.data.dropWhile Char.isWhitespace).reverse.dropWhile
      Char.isWhitespace).reverse).map Char.toLower⟩

/-! ## Report generation feedback state (`reportGeneration*` fields) -/

/-- The published report-generation progress state: the `reportGeneration*`
fields of the Alpine data object (app.js:25-41), with the two interval
handles (`reportGenerationSmoothTimer`, `reportGenerationPollInterval`)
modelled as booleans.  The transition/reset `setTimeout` handles are not
modelled; the claims under verification do not involve them. -/
structure ReportGen where
  reportGenerationState : String
  reportGenerationAction : String
  reportGenerationSessionId : String
  reportGenerationRequestStartedAt : ℤ
  reportGenerationStatusUpdatedAt : ℤ
  reportGenerationProgress : ℚ
  reportGenerationRawProgress : ℚ
  reportGenerationPhaseStartedAt : ℤ
  reportGenerationStageIndex : ℤ
  reportGenerationTotalStages : ℤ
  reportGenerationServerState : String
  reportGenerationServerMessage : String
  reportGenerationLastError : String
  reportGenerationSmoothTimer : Bool
  reportGenerationPollTimer : Bool
deriving DecidableEq

/-- The initial values of the `reportGeneration*` fields (app.js:25-41). -/
def ReportGen.initial : ReportGen where
  reportGenerationState := "idle"
  reportGenerationAction := "generate"
  reportGenerationSessionId := ""
  reportGenerationRequestStartedAt := 0
  reportGenerationStatusUpdatedAt := 0
  reportGenerationProgress := 0
  reportGenerationRawProgress := 0
  reportGenerationPhaseStartedAt := 0
  reportGenerationStageIndex := 0
  reportGenerationTotalStages := 6
  reportGenerationServerState := "queued"
  reportGenerationServerMessage := ""
  reportGenerationLastError := ""
  reportGenerationSmoothTimer := false
  reportGenerationPollTimer := false

/-- Model of `isReportGenerationProcessing` (app.js:2706-2708). -/
def isReportGenerationProcessing (s : ReportGen) : Bool :=
  s.reportGenerationState == "submitting" || s.reportGenerationState == "running"

/-- Model of the synchronous part of `startReportGenerationFeedback`
(app.js:2625-2652): timers are cleared, the feedback fields are seeded and
the smoothing interval is started.  The 450 ms submitting-to-running
transition timeout it arms is not part of the synchronous mutation. -/
def startReportGenerationFeedback (s : ReportGen) (action sessionId : String)
    (now : ℤ) : ReportGen :=
  { s with
    reportGenerationAction := if action = "regenerate" then "regenerate" else "generate",
    reportGenerationSessionId := sessionId,
    reportGenerationRequestStartedAt := now,
    reportGenerationState := "submitting",
    reportGenerationStatusUpdatedAt := now,
    reportGenerationPhaseStartedAt := now,
    reportGenerationProgress := 5,
    reportGenerationRawProgress := 5,
    reportGenerationStageIndex := 0,
    reportGenerationTotalStages := 6,
    reportGenerationServerState := "queued",
    reportGenerationServerMessage := "",
    reportGenerationLastError := "",
    reportGenerationSmoothTimer := true }

/-- Model of `finishReportGenerationFeedback` (app.js:2654-2670): the state
mutation performed on a terminal signal, with `result` and `errorMessage`
as in the source and `now` standing for `Date.now()`.  The 8 s / 12 s
display-hold reset timer it arms is not part of the mutation itself. -/
def finishReportGenerationFeedback (s : ReportGen) (result errorMessage : String)
    (now : ℤ) : ReportGen :=
  { s with
    reportGenerationState := if result = "success" then "success" else "error",
    reportGenerationStatusUpdatedAt := now,
    reportGenerationServerState := if result = "success" then "completed" else "failed",
    reportGenerationServerMessage := "",
    reportGenerationLastError := if result = "error" then errorMessage else "",
    reportGenerationProgress := 100,
    reportGenerationRawProgress := 100,
    reportGenerationSmoothTimer := false }

/-- Model of `getReportGenerationExpectedDuration` (app.js:2776-2787),
including the JS `phaseDurations[state] || 8000` falsy fallback, under
which the literal `0` entries for `completed`/`failed` fall through
to `8000`. -/
def getReportGenerationExpectedDuration (state : String) : ℤ :=
  let v : ℤ :=
    if state = "queued" then 2500
    else if state = "building_prompt" then 9000
    else if state = "generating" then 52000
    else if state = "fallback" then 18000
    else if state = "saving" then 5000
    else if state = "completed" then 0
    else if state = "failed" then 0
    else 8000
  if v = 0 then 8000 else v

/-- Model of `getReportGenerationPhaseTargetProgress` (app.js:2789-2800);
the `failed` entry reads the live progress fields through JS `||` chains. -/
def getReportGenerationPhaseTargetProgress (s : ReportGen) (state : String) : ℚ :=
  let v : ℚ :=
    if state = "queued" then 12
    else if state = "building_prompt" then 36
    else if state = "generating" then 86
    else if state = "fallback" then 90
    else if state = "saving" then 97
    else if state = "completed" then 100
    else if state = "failed" then
      (if s.reportGenerationProgress ≠ 0 then s.reportGenerationProgress
       else if s.reportGenerationRawProgress ≠ 0 then s.reportGenerationRawProgress
       else 90)
    else 90
  max 0 (min 100 v)

/-- The `phaseRatio` computed by one report smoothing tick (app.js:2808-2812). -/
def reportTickPhaseRatio (s : ReportGen) (now : ℤ) : ℚ :=
  let phaseStart := if s.reportGenerationPhaseStartedAt ≠ 0
    then s.reportGenerationPhaseStartedAt else now
  let elapsed : ℤ := max 0 (now - phaseStart)
  let expected := getReportGenerationExpectedDuration s.reportGenerationServerState
  if expected > 0 then min 1 ((elapsed : ℚ) / (expected : ℚ)) else 1

/-- The clamped `current` displayed value read by a tick (app.js:2814). -/
def reportTickCurrent (s : ReportGen) : ℚ := clamp100 s.reportGenerationProgress

/-- The clamped `backend` raw value read by a tick (app.js:2815). -/
def reportTickBackend (s : ReportGen) : ℚ := clamp100 s.reportGenerationRawProgress

/-- The `softTarget` of one report smoothing tick (app.js:2817). -/
def reportTickSoftTarget (s : ReportGen) (now : ℤ) : ℚ :=
  max (reportTickBackend s)
    (max (reportTickCurrent s)
      (getReportGenerationPhaseTargetProgress s s.reportGenerationServerState *
        reportTickPhaseRatio s now))

/-- The phase-specific `hardCeiling` of one report smoothing tick
(app.js:2818-2822). -/
def reportHardCeiling (s : ReportGen) : ℚ :=
  if s.reportGenerationServerState = "saving" then 99
  else if s.reportGenerationServerState = "generating" then 94
  else 96

/-- Model of one tick of the report smoothing interval installed by
`startReportGenerationSmoothing` (app.js:2802-2832). -/
def reportSmoothTick (s : ReportGen) (now : ℤ) : ReportGen :=
  if ¬ isReportGenerationProcessing s then s
  else
    let current := reportTickCurrent s
    let backend := reportTickBackend s
    let softTarget := reportTickSoftTarget s now
    let cappedTarget := min (reportHardCeiling s) softTarget
    if cappedTarget > current + 1/10 then
      let step := min (7/5) ((cappedTarget - current) * (11/50) + 1/5)
      { s with reportGenerationProgress := min cappedTarget (current + step) }
    else if backend > current + 1/10 then
      { s with reportGenerationProgress := min backend (current + 9/5) }
    else s

/-- One poll response body of `/status/report-generation/` as consumed by
`startReportGenerationPolling` (app.js:2718-2762).  `state` is `""` when
`data.state` is absent/falsy; `updated_at` is the parsed timestamp fed to
`parseValidTimestamp`; `progress` is the value of `Number(data.progress) || 0`;
`stage_index`/`total_stages` are `some` exactly when
`Number.isFinite(Number(...))` holds; `activeIsFalse` models
`data.active === false`. -/
structure ReportPollData where
  state : String
  updated_at : Option ℤ
  progress : ℚ
  stage_index : Option ℤ
  total_stages : Option ℤ
  message : String
  activeIsFalse : Bool
deriving DecidableEq

/-- Model of the body of the report-generation poll callback
(app.js:2720-2762) applied to one successfully parsed response `d`
(the `!response.ok` / falsy-`data` early returns leave the state
unchanged and are outside this function). -/
def applyReportPoll (s : ReportGen) (d : ReportPollData) (now : ℤ) : ReportGen :=
  let state := if d.state ≠ "" then d.state else s.reportGenerationServerState
  let statusUpdatedAt := parseValidTimestamp d.updated_at
  let requestStartedAt := s.reportGenerationRequestStartedAt
  if statusUpdatedAt ≠ 0 ∧ requestStartedAt ≠ 0 ∧ statusUpdatedAt + 500 < requestStartedAt
  then s
  else
    let phaseAt := if state ≠ s.reportGenerationServerState
      then now else s.reportGenerationPhaseStartedAt
    let lifecycle := if state = "queued" then "submitting" else "running"
    let newRaw := max s.reportGenerationRawProgress (max 0 (min 100 d.progress))
    let newProgress := max s.reportGenerationProgress newRaw
    let stageIdx := match d.stage_index with
      | some v => v
      | none => s.reportGenerationStageIndex
    let totalStg := match d.total_stages with
      | some v => v
      | none => s.reportGenerationTotalStages
    let updAt := if statusUpdatedAt ≠ 0 then statusUpdatedAt else now
    { s with
      reportGenerationPhaseStartedAt := phaseAt,
      reportGenerationServerState := state,
      reportGenerationState := lifecycle,
      reportGenerationRawProgress := newRaw,
      reportGenerationProgress := newProgress,
      reportGenerationStageIndex := stageIdx,
      reportGenerationTotalStages := totalStg,
      reportGenerationStatusUpdatedAt := updAt,
      reportGenerationLastError :=
        (if d.message ≠ "" then "" else s.reportGenerationLastError),
      reportGenerationServerMessage :=
        (if d.message ≠ "" then d.message else s.reportGenerationServerMessage),
      reportGenerationPollTimer :=
        (if d.activeIsFalse ∧ (state = "completed" ∨ state = "failed") then false
         else s.reportGenerationPollTimer) }

/-! ## Presentation stage profiles and the progress estimator -/

/-- One entry of `getPresentationStageProfiles` (app.js:2989-3016). -/
structure StageProfile where
  title : String
  expectedMs : ℤ
  weight : ℚ
  keywords : List String
deriving DecidableEq

/-- Model of `getPresentationStageProfiles` (app.js:2989-3016). -/
def getPresentationStageProfiles : List StageProfile :=
  [ { title := "解析 Markdown 并规划内容结构", expectedMs := 120000, weight := 18,
      keywords := ["markdown", "解析", "规划", "结构", "outline"] },
    { title := "生成 4K 演示文稿图像", expectedMs := 300000, weight := 34,
      keywords := ["4k", "演示", "文稿", "图像", "slide", "presentation"] },
    { title := "生成 4K 信息图", expectedMs := 260000, weight := 33,
      keywords := ["4k", "信息图", "infographic", "图表"] },
    { title := "整合为 PDF 并生成下载链接", expectedMs := 90000, weight := 15,
      keywords := ["pdf", "下载", "链接", "整合", "export"] } ]

/-- Model of `normalizeReflyStageStatus` (app.js:3018-3031). -/
def normalizeReflyStageStatus (rawStatus : String) : String :=
  let text := lowerTrim rawStatus
  if text = "" then "pending"
  else if ["finish", "finished", "completed", "success", "succeeded", "done"].any
      (fun key => strIncludes text key) then "finished"
  else if ["fail", "failed", "error", "cancelled", "canceled", "aborted", "stopped"].any
      (fun key => strIncludes text key) then "failed"
  else if ["executing", "running", "processing", "in_progress", "working"].any
      (fun key => strIncludes text key) then "running"
  else "pending"

/-- The keyword score one profile receives for a (normalized) title in
`matchPresentationStageIndex` (app.js:3040-3043). -/
def keywordScore (normalizedTitle : String) (keywords : List String) : ℕ :=
  keywords.foldl
    (fun sum keyword =>
      let token := lowerTrim keyword
      if token ≠ "" ∧ strIncludes normalizedTitle token then sum + 1 else sum)
    0

/-- Model of `matchPresentationStageIndex` (app.js:3033-3054): index of the
best-scoring profile (first profile wins ties, score must be positive),
falling back to `fallbackIndex` when it is in range, and `-1` otherwise. -/
def matchPresentationStageIndex (title : String) (fallbackIndex : ℤ) : ℤ :=
  let profiles := getPresentationStageProfiles
  let normalizedTitle := lowerTrim title
  let best := profiles.enum.foldl
    (fun (acc : ℤ × ℕ) p =>
      let score := keywordScore normalizedTitle p.2.keywords
      if score > acc.2 then ((p.1 : ℤ), score) else acc)
    (-1, 0)
  if best.1 ≥ 0 then best.1
  else if 0 ≤ fallbackIndex ∧ fallbackIndex < (profiles.length : ℤ) then fallbackIndex
  else -1

/-- Model of `getPresentationNodeElapsedMs` (app.js:3056-3062); `now` is
`Date.now()`, the fallback anchor used when the end timestamp is missing. -/
def getPresentationNodeElapsedMs (startTime endTime : Option ℤ) (now : ℤ) : ℤ :=
  let startTs := parseValidTimestamp startTime
  if startTs = 0 then 0
  else
    let endTs := parseValidTimestamp endTime
    let anchor := if endTs = 0 then now else endTs
    max 0 (anchor - startTs)

/-- Placeholder profile for out-of-range accesses (`profiles[i]?` in JS). -/
def dummyProfile : StageProfile := { title := "", expectedMs := 0, weight := 0, keywords := [] }

/-- Model of `getPresentationStageBaseProgress` (app.js:3064-3072). -/
def getPresentationStageBaseProgress (stageIndex : ℤ) : ℚ :=
  let profiles := getPresentationStageProfiles
  let index := max 0 (min (profiles.length : ℤ) stageIndex)
  (profiles.take index.toNat).foldl (fun b p => b + p.weight) 0

/-- Model of `getPresentationStageWeight` (app.js:3074-3078). -/
def getPresentationStageWeight (stageIndex : ℤ) : ℚ :=
  let profiles := getPresentationStageProfiles
  let i := (max 0 (min ((profiles.length : ℤ) - 1) stageIndex)).toNat
  (profiles.getD i dummyProfile).weight

/-- Model of `getPresentationStageExpectedDuration` (app.js:3080-3084),
including the `profile?.expectedMs || 120000` falsy fallback. -/
def getPresentationStageExpectedDuration (stageIndex : ℤ) : ℤ :=
  let profiles := getPresentationStageProfiles
  let i := (max 0 (min ((profiles.length : ℤ) - 1) stageIndex)).toNat
  let e := (profiles.getD i dummyProfile).expectedMs
  if e = 0 then 120000 else e

/-- One node of the Refly workflow output array inspected by the estimator
(app.js:3131-3159).  `startTime`/`endTime` carry the parsed
`new Date(x).getTime()` values (`none` for a missing/unparseable field),
as consumed by `getPresentationNodeElapsedMs`. -/
structure ReflyNode where
  title : String
  name : String
  status : String
  startTime : Option ℤ
  endTime : Option ℤ
deriving DecidableEq

/-- One `/refly/status` (or `/presentation/status`) response body as
consumed by the presentation progress pipeline.  `outputs` models
`refly_response.data.output` (falling back to `refly_response.output`);
`reflyStatusStatus` and `reflyStatusDataStatus` model
`refly_status.status` and `refly_status.data.status` (empty string for a
missing field); `pdf_url`/`presentation_local_url` are `""` when absent. -/
structure ReflyResult where
  pdf_url : String
  presentation_local_url : String
  processing : Bool
  execution_id : String
  outputs : List ReflyNode
  reflyStatusStatus : String
  reflyStatusDataStatus : String
deriving DecidableEq

/-- Per-stage accumulator record of the estimator (app.js:3109-3116). -/
structure StageData where
  index : ℕ
  title : String
  status : String
  progress : ℚ
  weight : ℚ
  expectedMs : ℤ
deriving DecidableEq

/-- Placeholder stage record for out-of-range accesses. -/
def dummyStage : StageData :=
  { index := 0, title := "", status := "pending", progress := 0, weight := 0, expectedMs := 0 }

/-- The initial `stageData` array of the estimator (app.js:3109-3116). -/
def initialStageData : List StageData :=
  getPresentationStageProfiles.enum.map
    (fun p => { index := p.1, title := p.2.title, status := "pending", progress := 0,
                weight := p.2.weight, expectedMs := p.2.expectedMs })

/-- Model of the `getPriority` helper inside the estimator (app.js:3124-3129). -/
def getPriority (status : String) : ℕ :=
  if status = "finished" then 4
  else if status = "failed" then 3
  else if status = "running" then 2
  else 1

/-- The per-node local stage progress computed by the estimator
(app.js:3139-3148) from the normalized `status`, the node elapsed time and
the stage expected duration.  Note the JS `Math.round(ratio * 100) || 60`
fallback in the `failed` branch. -/
def reflyStageProgress (status : String) (elapsedMs expectedMs : ℤ) : ℤ :=
  if status = "finished" then 100
  else if status = "running" then
    let ratio : ℚ := if elapsedMs > 0 then (elapsedMs : ℚ) / (expectedMs : ℚ) else 0
    min 92 (max 12 (jsRound (ratio * 100)))
  else if status = "failed" then
    let ratio : ℚ := if elapsedMs > 0 then (elapsedMs : ℚ) / (expectedMs : ℚ) else 0
    let r := jsRound (ratio * 100)
    min 96 (max 25 (if r = 0 then 60 else r))
  else 0

/-- The effect of one `outputs.forEach` iteration of the estimator
(app.js:3131-3159) on the `stageData` array. -/
def applyReflyNode (now : ℤ) (sd : List StageData) (nodeIndex : ℕ) (node : ReflyNode) :
    List StageData :=
  let totalStages := sd.length
  let nodeTitle := if node.title ≠ "" then node.title else node.name
  let stageIndex := matchPresentationStageIndex nodeTitle (nodeIndex : ℤ)
  if stageIndex < 0 ∨ stageIndex ≥ (totalStages : ℤ) then sd
  else
    let i := stageIndex.toNat
    let status := normalizeReflyStageStatus node.status
    let elapsedMs := getPresentationNodeElapsedMs node.startTime node.endTime now
    let current := sd.getD i dummyStage
    let expectedMs := if current.expectedMs = 0 then 1 else current.expectedMs
    let stageProgress := reflyStageProgress status elapsedMs expectedMs
    let shouldReplace := getPriority status > getPriority current.status
      ∨ (status = current.status ∧ (stageProgress : ℚ) ≥ current.progress)
    if shouldReplace then
      sd.set i { current with
        status := status,
        progress := max 0 (min 100 (stageProgress : ℚ)),
        title := if node.title ≠ "" then node.title else current.title }
    else sd

/-- The full `outputs.forEach` loop of the estimator over the indexed
output nodes. -/
def applyReflyOutputs (now : ℤ) : List StageData → List (ℕ × ReflyNode) → List StageData
  | sd, [] => sd
  | sd, (i, n) :: rest => applyReflyOutputs now (applyReflyNode now sd i n) rest

/-- The output record of the estimator (app.js:3207-3213). -/
structure PresEstimate where
  progress : ℤ
  stageIndex : ℕ
  totalStages : ℕ
  stageStatus : String
  state : String
deriving DecidableEq

/-- Model of `estimatePresentationProgressFromRefly` (app.js:3086-3214).
The wall-clock dependence of the source (`Date.now()` reached through
`getPresentationNodeElapsedMs`) is the explicit parameter `now`. -/
def estimatePresentationProgressFromRefly (result : ReflyResult) (now : ℤ) : PresEstimate :=
  let profiles := getPresentationStageProfiles
  let totalStages := profiles.length
  if totalStages = 0 then
    { progress := if result.pdf_url ≠ "" then 100 else 0,
      stageIndex := 0,
      totalStages := 0,
      stageStatus := if result.pdf_url ≠ "" then "finished" else "pending",
      state := if result.pdf_url ≠ "" then "completed"
        else if result.processing then "executing" else "idle" }
  else if result.pdf_url ≠ "" then
    { progress := 100, stageIndex := totalStages - 1, totalStages := totalStages,
      stageStatus := "finished", state := "completed" }
  else
    let stageData := applyReflyOutputs now initialStageData result.outputs.enum
    let totalWeightRaw := stageData.foldl (fun sum st => sum + st.weight) 0
    let totalWeight := if totalWeightRaw = 0 then 100 else totalWeightRaw
    let weighted := stageData.foldl (fun sum st => sum + st.progress / 100 * st.weight) 0
    let progress0 := jsRound (weighted / totalWeight * 100)
    let workflowStatusRaw := if result.reflyStatusStatus ≠ "" then result.reflyStatusStatus
      else result.reflyStatusDataStatus
    let workflowStatus := lowerTrim workflowStatusRaw
    let workflowState := normalizeReflyStageStatus workflowStatus
    let isProcessing := result.processing
    let progress1 := if isProcessing ∧ progress0 < 5 then 5 else progress0
    let progress2 := if workflowState = "finished" ∧ progress1 < 96 then 96 else progress1
    let progress3 := if isProcessing then min 99 progress2 else progress2
    let runningStage := stageData.find? (fun st => st.status == "running")
    let pendingStage := stageData.find? (fun st => st.status == "pending")
    let failedStage := stageData.find? (fun st => st.status == "failed")
    let finishedStages := stageData.filter (fun st => st.status == "finished")
    let si : ℕ × String :=
      match failedStage with
      | some st => (st.index, "failed")
      | none =>
        match runningStage with
        | some st => (st.index, "running")
        | none =>
          match pendingStage with
          | some st => (st.index, "pending")
          | none =>
            match finishedStages.getLast? with
            | some st => (min (totalStages - 1) st.index, "finished")
            | none => (0, "pending")
    { progress := max 0 (min 100 progress3),
      stageIndex := si.1,
      totalStages := totalStages,
      stageStatus := si.2,
      state := if workflowStatus ≠ "" then workflowStatus
        else if isProcessing then "executing" else "idle" }

/-! ## Presentation generation feedback state (`presentation*` fields) -/

/-- The published presentation-progress state: the `presentation*` fields
of the Alpine data object (app.js:42-54, 250-251) plus `generatingSlides`,
with the two interval handles (`presentationSmoothTimer`,
`presentationPollInterval`) modelled as booleans. -/
structure Pres where
  generatingSlides : Bool
  presentationPolling : Bool
  presentationPollTimer : Bool
  presentationExecutionId : String
  presentationPollingReportName : String
  presentationProgress : ℚ
  presentationRawProgress : ℚ
  presentationStageIndex : ℕ
  presentationTotalStages : ℕ
  presentationStageStatus : String
  presentationState : String
  presentationPhaseStartedAt : ℤ
  presentationSmoothTimer : Bool
  presentationPdfUrl : String
  presentationLocalUrl : String
deriving DecidableEq

/-- The initial values of the `presentation*` fields (app.js:42-54, 250-251). -/
def Pres.initial : Pres where
  generatingSlides := false
  presentationPolling := false
  presentationPollTimer := false
  presentationExecutionId := ""
  presentationPollingReportName := ""
  presentationProgress := 0
  presentationRawProgress := 0
  presentationStageIndex := 0
  presentationTotalStages := 4
  presentationStageStatus := "pending"
  presentationState := "idle"
  presentationPhaseStartedAt := 0
  presentationSmoothTimer := false
  presentationPdfUrl := ""
  presentationLocalUrl := ""

/-- Model of `stopPresentationProgressSmoothing` (app.js:3300-3305). -/
def stopPresentationProgressSmoothing (s : Pres) : Pres :=
  { s with presentationSmoothTimer := false }

/-- Model of `resetPresentationProgressFeedback` (app.js:3307-3316): the
smoothing timer is stopped and all feedback fields return to their initial
values. -/
def resetPresentationProgressFeedback (s : Pres) : Pres :=
  { s with presentationSmoothTimer := false,
           presentationProgress := 0, presentationRawProgress := 0,
           presentationStageIndex := 0, presentationTotalStages := 4,
           presentationStageStatus := "pending", presentationState := "idle",
           presentationPhaseStartedAt := 0 }

/-- Model of `updatePresentationProgressFromResult` (app.js:3216-3266).
The `else` branch of the source's final `if (isRunning)` is unreachable
(it is guarded by `if (!isRunning) return;` just above) and is therefore
not part of the model. -/
def updatePresentationProgressFromResult (s : Pres) (result : ReflyResult) (now : ℤ) :
    Pres :=
  let estimate := estimatePresentationProgressFromRefly result now
  let isRunning := s.generatingSlides || s.presentationPolling
  let estTotal := if estimate.totalStages = 0 then 1 else estimate.totalStages
  let nextStageIndex := (max 0 (min ((estTotal : ℤ) - 1) (estimate.stageIndex : ℤ))).toNat
  let stageChanged := nextStageIndex ≠ s.presentationStageIndex
    ∨ estimate.stageStatus ≠ s.presentationStageStatus
  let newTotal := if estimate.totalStages ≠ 0 then estimate.totalStages
    else if s.presentationTotalStages ≠ 0 then s.presentationTotalStages else 4
  let newStageStatus := if estimate.stageStatus ≠ "" then estimate.stageStatus
    else if s.presentationStageStatus ≠ "" then s.presentationStageStatus else "pending"
  let newState := if estimate.state ≠ "" then estimate.state
    else if s.presentationState ≠ "" then s.presentationState else "idle"
  let phaseAt := if stageChanged ∨ s.presentationPhaseStartedAt = 0
    then now else s.presentationPhaseStartedAt
  if result.pdf_url ≠ "" then
    { s with presentationTotalStages := newTotal,
             presentationStageIndex := nextStageIndex,
             presentationStageStatus := "finished",
             presentationState := "completed",
             presentationPhaseStartedAt := phaseAt,
             presentationRawProgress := 100, presentationProgress := 100,
             presentationSmoothTimer := false }
  else if ¬ isRunning then
    { s with presentationTotalStages := newTotal,
             presentationStageIndex := nextStageIndex,
             presentationStageStatus := newStageStatus,
             presentationState := newState,
             presentationPhaseStartedAt := phaseAt }
  else
    let newRaw := max s.presentationRawProgress (max (estimate.progress : ℚ) 5)
    let newProgress := max s.presentationProgress newRaw
    if estimate.progress ≥ 100 then
      { s with presentationTotalStages := newTotal,
               presentationStageIndex := nextStageIndex,
               presentationStageStatus := "finished",
               presentationState := "completed",
               presentationPhaseStartedAt := phaseAt,
               presentationRawProgress := 100, presentationProgress := 100,
               presentationSmoothTimer := false }
    else
      { s with presentationTotalStages := newTotal,
               presentationStageIndex := nextStageIndex,
               presentationStageStatus := newStageStatus,
               presentationState := newState,
               presentationPhaseStartedAt := phaseAt,
               presentationRawProgress := newRaw,
               presentationProgress := newProgress }

/-- Model of `stopPresentationPolling` (app.js:3422-3436): the poll
interval is cleared, the live pair is erased, the smoothing timer is
stopped, and the progress fields are reset. -/
def stopPresentationPolling (s : Pres) : Pres :=
  { s with presentationPollTimer := false, presentationPolling := false,
           presentationExecutionId := "", presentationPollingReportName := "",
           presentationSmoothTimer := false,
           presentationProgress := 0, presentationRawProgress := 0,
           presentationStageIndex := 0, presentationStageStatus := "pending",
           presentationPhaseStartedAt := 0 }

/-- Model of the synchronous part of `startPresentationPolling`
(app.js:3350-3369): the guards, the reset of any previous poller, and the
seeding of the polling state, up to and including starting the smoothing
interval.  The first `pollOnce()` invocation suspends at its network call
before mutating anything, so it contributes nothing to the synchronous
transition.  `selectedReport` stands for `this.selectedReport`. -/
def startPresentationPollingInit (s : Pres) (executionId reportName selectedReport : String)
    (now : ℤ) : Pres :=
  if executionId = "" then s
  else
    let targetReportName := jsTrim (if reportName ≠ "" then reportName else selectedReport)
    if targetReportName = "" then s
    else if s.presentationPolling ∧ s.presentationExecutionId = executionId
        ∧ s.presentationPollingReportName = targetReportName then s
    else
      let s1 := stopPresentationPolling s
      { s1 with presentationPolling := true,
                presentationExecutionId := executionId,
                presentationPollingReportName := targetReportName,
                presentationState := "executing",
                presentationPhaseStartedAt :=
                  (if s1.presentationPhaseStartedAt ≠ 0
                   then s1.presentationPhaseStartedAt else now),
                presentationRawProgress := max s1.presentationRawProgress 5,
                presentationProgress := max s1.presentationProgress 5,
                presentationSmoothTimer := true,
                presentationPollTimer := true }

/-- Model of the part of `pollOnce` (app.js:3376-3416) that runs when the
status response arrives: the post-response correlation guard (the live
pair is re-read from the state and compared with the captured
`curExec`/`curReport`), the estimator-driven update, and the terminal
`pdf_url` handling.  Responses for a stale pair leave the state unchanged. -/
def applyPresPollResult (s : Pres) (curExec curReport : String) (result : ReflyResult)
    (now : ℤ) : Pres :=
  if s.presentationPolling = false ∨ s.presentationExecutionId ≠ curExec
      ∨ s.presentationPollingReportName ≠ curReport then s
  else
    let s1 := updatePresentationProgressFromResult s result now
    if result.pdf_url ≠ "" then
      stopPresentationPolling
        { s1 with presentationPdfUrl := result.pdf_url,
                  presentationState := "completed",
                  presentationRawProgress := 100,
                  presentationProgress := 100 }
    else s1

/-- Model of `stopPresentationGeneration` (app.js:3438-3464) after the
user confirms the dialog.  `selectedReport` stands for
`this.selectedReport`; `abortOk` tells whether the awaited abort
`apiCall` succeeded.  Only on success does the body after the `await`
run — `stopPresentationPolling` plus the reset of the cancellation
fields; the `catch` path (app.js:3461-3463) merely shows an error toast
and leaves the whole published state untouched, as does the empty
`targetReportName` guard. -/
def stopPresentationGeneration (s : Pres) (selectedReport : String) (abortOk : Bool) : Pres :=
  let targetReportName := jsTrim (if s.presentationPollingReportName ≠ ""
    then s.presentationPollingReportName else selectedReport)
  if targetReportName = "" then s
  else if abortOk then
    let s1 := stopPresentationPolling s
    { s1 with generatingSlides := false,
              presentationExecutionId := "",
              presentationState := "stopped",
              presentationProgress := 0,
              presentationRawProgress := 0,
              presentationStageIndex := 0,
              presentationStageStatus := "pending",
              presentationPhaseStartedAt := 0 }
  else s

/-- The `softTarget` of one presentation smoothing tick (app.js:3277-3288):
`Math.max(current, backend, phaseTarget)` with the phase target computed
from the stage profile and the elapsed phase time. -/
def presTickSoftTarget (s : Pres) (now : ℤ) : ℚ :=
  let phaseStart := if s.presentationPhaseStartedAt ≠ 0
    then s.presentationPhaseStartedAt else now
  let elapsed : ℤ := max 0 (now - phaseStart)
  let expected := getPresentationStageExpectedDuration (s.presentationStageIndex : ℤ)
  let phaseRatio : ℚ := if expected > 0 then min 1 ((elapsed : ℚ) / (expected : ℚ)) else 1
  let base := getPresentationStageBaseProgress (s.presentationStageIndex : ℤ)
  let weight := getPresentationStageWeight (s.presentationStageIndex : ℤ)
  let phaseTarget := min 99 (base + weight * phaseRatio)
  max (clamp100 s.presentationProgress) (max (clamp100 s.presentationRawProgress) phaseTarget)

/-- Model of one tick of the presentation smoothing interval installed by
`startPresentationProgressSmoothing` (app.js:3268-3298). -/
def presSmoothTick (s : Pres) (now : ℤ) : Pres :=
  if ¬ (s.generatingSlides || s.presentationPolling) then s
  else if s.presentationState = "completed" ∨ s.presentationState = "failed"
      ∨ s.presentationState = "stopped" then s
  else
    let current := clamp100 s.presentationProgress
    let backend := clamp100 s.presentationRawProgress
    let softTarget := presTickSoftTarget s now
    let cappedTarget := min 99 softTarget
    if cappedTarget > current + 1/10 then
      let step := min (6/5) ((cappedTarget - current) * (11/50) + 9/50)
      { s with presentationProgress := min cappedTarget (current + step) }
    else if backend > current + 1/10 then
      { s with presentationProgress := min backend (current + 7/5) }
    else s

/-- Model of the response-handling part of `fetchPresentationStatus`
(app.js:2958-2987) for a successful `/presentation/status` response: url
fields are stored, the estimator-driven update runs, and depending on the
response the poller is reattached, the terminal success view is shown, or
the feedback is reset. -/
def applyPresentationStatus (s : Pres) (status : ReflyResult) (selectedReport : String)
    (now : ℤ) : Pres :=
  let s1 := { s with presentationPdfUrl := status.pdf_url,
                     presentationLocalUrl := status.presentation_local_url }
  let s2 := updatePresentationProgressFromResult s1 status now
  if status.processing ∧ status.execution_id ≠ "" then
    startPresentationPollingInit s2 status.execution_id selectedReport selectedReport now
  else if status.pdf_url ≠ "" then
    stopPresentationProgressSmoothing
      { s2 with presentationProgress := 100, presentationRawProgress := 100,
                presentationState := "completed" }
  else resetPresentationProgressFeedback s2

/-! ## The presentation poll loop (attempt budget and timeout notice) -/

/-- The poll cadence of `startPresentationPolling` in milliseconds
(app.js:3419). -/
def presPollIntervalMs : ℤ := 6000

/-- The attempt budget `maxAttempts` of `startPresentationPolling`
(app.js:3371). -/
def presMaxAttempts : ℕ := 200

/-- The closure-local bookkeeping of one `startPresentationPolling` run:
the `attempts` counter and the `timeoutNotified` latch (app.js:3370-3372). -/
structure PollLoop where
  attempts : ℕ
  timeoutNotified : Bool
deriving DecidableEq

/-- The observable outcome of one `pollOnce` invocation: the new published
state, the new loop bookkeeping, whether a status request was issued, and
whether the one-time "still processing" notice was shown. -/
structure PollStepOut where
  pres : Pres
  loop : PollLoop
  issuedRequest : Bool
  emittedNotice : Bool
deriving DecidableEq

/-- Model of one full `pollOnce` invocation (app.js:3376-3416) in which the
response (if any) is applied in the same step: the entry guard, the
`attempts` increment, the status request, the response application, and
the exhaustion notice.  `response = none` models a failed `apiCall`
(caught and ignored by the source). -/
def presPollOnce (s : Pres) (lp : PollLoop) (curExec curReport : String)
    (response : Option ReflyResult) (now : ℤ) : PollStepOut :=
  if s.presentationPolling = false ∨ s.presentationExecutionId ≠ curExec
      ∨ s.presentationPollingReportName ≠ curReport then
    { pres := s, loop := lp, issuedRequest := false, emittedNotice := false }
  else
    let lp1 : PollLoop := { lp with attempts := lp.attempts + 1 }
    match response with
    | none => { pres := s, loop := lp1, issuedRequest := true, emittedNotice := false }
    | some result =>
      let s1 := applyPresPollResult s curExec curReport result now
      if result.pdf_url ≠ "" then
        { pres := s1, loop := lp1, issuedRequest := true, emittedNotice := false }
      else if lp1.attempts ≥ presMaxAttempts ∧ lp1.timeoutNotified = false then
        { pres := s1, loop := { lp1 with timeoutNotified := true },
          issuedRequest := true, emittedNotice := true }
      else
        { pres := s1, loop := lp1, issuedRequest := true, emittedNotice := false }

/-- A whole poll run: fold `presPollOnce` over a list of (response, time)
pairs, returning the final state, the final bookkeeping, and the total
number of "still processing" notices shown. -/
def presPollRun (s : Pres) (lp : PollLoop) (curExec curReport : String) :
    List (Option ReflyResult × ℤ) → Pres × PollLoop × ℕ
  | [] => (s, lp, 0)
  | (resp, now) :: rest =>
    let out := presPollOnce s lp curExec curReport resp now
    let result := presPollRun out.pres out.loop curExec curReport rest
    (result.1, result.2.1, result.2.2 + (if out.emittedNotice then 1 else 0))

/-! ## Iterated runs and spec-side formulations -/

/-- Fold a sequence of report poll responses (with their arrival times)
through `applyReportPoll`. -/
def applyReportPollRun (s : ReportGen) : List (ReportPollData × ℤ) → ReportGen
  | [] => s
  | (d, n) :: rest => applyReportPollRun (applyReportPoll s d n) rest

/-- Fold a sequence of presentation status results (with their arrival
times) through `updatePresentationProgressFromResult`. -/
def updatePresRun (s : Pres) : List (ReflyResult × ℤ) → Pres
  | [] => s
  | (r, n) :: rest => updatePresRun (updatePresentationProgressFromResult s r n) rest

/-- The three-argument clamp the spec writes as `clamp(lo, x, hi)`. -/
def clampInt (lo x hi : ℤ) : ℤ := max lo (min x hi)

/-- The per-phase local progress in the spec formulation (amended):
`finished → 100`; `running → clamp(12, round(elapsed/expected × 100), 92)`;
`failed → clamp(25, r, 96)` where `r` is `round(elapsed/expected × 100)`
when that rounds to a nonzero value and `60` otherwise; `pending → 0`. -/
def specStageProgress (status : String) (elapsedMs expectedMs : ℤ) : ℤ :=
  let r := jsRound ((if elapsedMs > 0 then (elapsedMs : ℚ) / (expectedMs : ℚ) else 0) * 100)
  if status = "finished" then 100
  else if status = "running" then clampInt 12 r 92
  else if status = "failed" then clampInt 25 (if r = 0 then 60 else r) 96
  else 0

/-- A workflow node whose elapsed time does not depend on the wall clock:
either its start timestamp is unparseable (elapsed is `0`) or its end
timestamp is present, anchoring the elapsed time. -/
def nodeTimeAnchored (n : ReflyNode) : Prop :=
  parseValidTimestamp n.startTime = 0 ∨ parseValidTimestamp n.endTime ≠ 0

instance (n : ReflyNode) : Decidable (nodeTimeAnchored n) := by
  unfold nodeTimeAnchored; infer_instance

/-! ## Concrete fixtures used by counterexamples and witnesses -/

/-- A poll response reporting raw progress 96 in the `generating` phase. -/
def cexPollGenerating : ReportPollData :=
  { state := "generating", updated_at := some 2000, progress := 96,
    stage_index := none, total_stages := none, message := "", activeIsFalse := false }

/-- A recovery status response: in-flight execution `E3`, workflow already
reported finished by the backend, no pdf yet. -/
def cexRecoveryStatus : ReflyResult :=
  { pdf_url := "", presentation_local_url := "", processing := true,
    execution_id := "E3", outputs := [], reflyStatusStatus := "finished",
    reflyStatusDataStatus := "" }

/-- A terminal poll response carrying the pdf artifact. -/
def cexPdfResult : ReflyResult :=
  { pdf_url := "http://cdn/p.pdf", presentation_local_url := "", processing := false,
    execution_id := "E1", outputs := [], reflyStatusStatus := "finish",
    reflyStatusDataStatus := "" }

/-- A non-terminal poll response while the workflow is executing. -/
def cexRunningResult : ReflyResult :=
  { pdf_url := "", presentation_local_url := "", processing := true,
    execution_id := "E1", outputs := [], reflyStatusStatus := "executing",
    reflyStatusDataStatus := "" }

/-- A live presentation-polling state for execution `E1` on `r.md`. -/
def cexLivePres : Pres :=
  { Pres.initial with
    presentationPolling := true, presentationPollTimer := true,
    presentationExecutionId := "E1", presentationPollingReportName := "r.md",
    presentationState := "executing", presentationProgress := 50,
    presentationRawProgress := 50, presentationSmoothTimer := true,
    presentationPhaseStartedAt := 1 }

/-- A stage-0 node still running, with a start timestamp but no end
timestamp: its elapsed time is anchored at `Date.now()`. -/
def cexTimedNode : ReflyNode :=
  { title := "解析 Markdown", name := "", status := "running",
    startTime := some 1000, endTime := none }

/-- A status result containing only `cexTimedNode`. -/
def cexTimedResult : ReflyResult :=
  { pdf_url := "", presentation_local_url := "", processing := false,
    execution_id := "", outputs := [cexTimedNode], reflyStatusStatus := "",
    reflyStatusDataStatus := "" }

/-- The same stage-0 node with an end timestamp present: its elapsed time
is anchored by the node itself. -/
def witAnchoredNode : ReflyNode :=
  { title := "解析 Markdown", name := "", status := "running",
    startTime := some 1000, endTime := some 61000 }

/-- A status result containing only `witAnchoredNode`. -/
def witAnchoredResult : ReflyResult :=
  { pdf_url := "", presentation_local_url := "", processing := false,
    execution_id := "", outputs := [witAnchoredNode], reflyStatusStatus := "",
    reflyStatusDataStatus := "" }

/-- A report-generation state whose request started at `t = 10000`. -/
def witStaleState : ReportGen :=
  { ReportGen.initial with
    reportGenerationState := "running",
    reportGenerationRequestStartedAt := 10000,
    reportGenerationServerState := "generating",
    reportGenerationProgress := 40, reportGenerationRawProgress := 40 }

/-- A poll response whose `updated_at` parses to `1000`, more than 500 ms
before the recorded request start `10000`. -/
def witStaleData : ReportPollData :=
  { state := "completed", updated_at := some 1000, progress := 100,
    stage_index := some 5, total_stages := some 6, message := "done",
    activeIsFalse := true }

/-! ## Helper lemmas -/

set_option maxHeartbeats 1000000 in
theorem updatePres_polling_eq (s : Pres) (r : ReflyResult) (now : ℤ) :
    (updatePresentationProgressFromResult s r now).presentationPolling =
      s.presentationPolling := by
  unfold updatePresentationProgressFromResult
  dsimp only
  split_ifs <;> rfl

/-! ## C1: terminal progress versus lifecycle state -/

/-- C1 (counterexample): `finishReportGenerationFeedback` with result
`error` leaves the displayed progress at exactly 100 while the lifecycle
state is `error`, not `success`; and on the presentation side the
successful poll response (carrying `pdf_url`) ends with the displayed
progress reset to 0 by `stopPresentationPolling` while the published state
still reports `completed`.  Both refute "displayed progress is exactly 100
iff the lifecycle state is success". -/
theorem report_error_terminal_progress_counterexample :
    (finishReportGenerationFeedback ReportGen.initial "error" "boom" 0).reportGenerationProgress
        = 100
    ∧ (finishReportGenerationFeedback ReportGen.initial "error" "boom" 0).reportGenerationState
        = "error"
    ∧ (applyPresPollResult cexLivePres "E1" "r.md" cexPdfResult 9000).presentationState
        = "completed"
    ∧ (applyPresPollResult cexLivePres "E1" "r.md" cexPdfResult 9000).presentationProgress
        = 0 := by
  with_unfolding_all decide

/-- C1 (amended): `finishReportGenerationFeedback` forces the displayed
progress to 100 on both terminal results, with lifecycle `success` exactly
when the result is `success` (and `error` otherwise), stopping the
smoothing scheduler; on the presentation side, a live poll response
carrying `pdf_url` publishes state `completed` but then resets the
displayed progress to 0 (via `stopPresentationPolling`), so progress does
not stay at 100 under the `completed` state. -/
theorem terminal_progress_amended (s : ReportGen) (msg : String) (now : ℤ)
    (t : Pres) (curExec curReport : String) (r : ReflyResult) (tnow : ℤ)
    (hpoll : t.presentationPolling = true) (hexec : t.presentationExecutionId = curExec)
    (hname : t.presentationPollingReportName = curReport) (hpdf : r.pdf_url ≠ "") :
    (finishReportGenerationFeedback s "success" msg now).reportGenerationProgress = 100
    ∧ (finishReportGenerationFeedback s "success" msg now).reportGenerationState = "success"
    ∧ (finishReportGenerationFeedback s "success" msg now).reportGenerationSmoothTimer = false
    ∧ (finishReportGenerationFeedback s "error" msg now).reportGenerationProgress = 100
    ∧ (finishReportGenerationFeedback s "error" msg now).reportGenerationState = "error"
    ∧ (applyPresPollResult t curExec curReport r tnow).presentationState = "completed"
    ∧ (applyPresPollResult t curExec curReport r tnow).presentationProgress = 0
    ∧ (applyPresPollResult t curExec curReport r tnow).presentationPolling = false := by
  have hguard : ¬ (t.presentationPolling = false ∨ t.presentationExecutionId ≠ curExec
      ∨ t.presentationPollingReportName ≠ curReport) := by
    simp [hpoll, hexec, hname]
  refine ⟨?_, ?_, ?_, ?_, ?_, ?_, ?_, ?_⟩ <;>
    simp [finishReportGenerationFeedback, applyPresPollResult, hguard, hpdf,
      stopPresentationPolling, stopPresentationProgressSmoothing]

/-- C1 (witness): the amended statement at a concrete live polling state
and a concrete terminal response. -/
theorem terminal_progress_amended_witness :
    cexLivePres.presentationPolling = true
    ∧ cexPdfResult.pdf_url ≠ ""
    ∧ ((finishReportGenerationFeedback ReportGen.initial "success" "" 7).reportGenerationProgress
          = 100
        ∧ (finishReportGenerationFeedback ReportGen.initial "success" "" 7).reportGenerationState
          = "success"
        ∧ (finishReportGenerationFeedback ReportGen.initial "success" "" 7).reportGenerationSmoothTimer
          = false
        ∧ (finishReportGenerationFeedback ReportGen.initial "error" "" 7).reportGenerationProgress
          = 100
        ∧ (finishReportGenerationFeedback ReportGen.initial "error" "" 7).reportGenerationState
          = "error"
        ∧ (applyPresPollResult cexLivePres "E1" "r.md" cexPdfResult 9000).presentationState
          = "completed"
        ∧ (applyPresPollResult cexLivePres "E1" "r.md" cexPdfResult 9000).presentationProgress
          = 0
        ∧ (applyPresPollResult cexLivePres "E1" "r.md" cexPdfResult 9000).presentationPolling
          = false) :=
  ⟨by decide, by decide,
    terminal_progress_amended ReportGen.initial "" 7 cexLivePres "E1" "r.md" cexPdfResult 9000
      (by decide) (by decide) (by decide) (by decide)⟩

theorem clamp100_eq (p : ℚ) (h0 : 0 ≤ p) (h1 : p ≤ 100) : clamp100 p = p := by
  unfold clamp100
  rw [min_eq_right h1, max_eq_right h0]

theorem clamp100_mono (a b : ℚ) (h : a ≤ b) : clamp100 a ≤ clamp100 b := by
  unfold clamp100
  exact max_le_max (le_refl 0) (min_le_min (le_refl 100) h)

/-! ## C2: smoothing tick bounds -/

theorem reportSmoothTick_facts (s : ReportGen) (now : ℤ)
    (h0 : 0 ≤ s.reportGenerationProgress) (h1 : s.reportGenerationProgress ≤ 100) :
    s.reportGenerationProgress ≤ (reportSmoothTick s now).reportGenerationProgress
    ∧ (reportSmoothTick s now).reportGenerationProgress ≤ reportTickSoftTarget s now
    ∧ (reportSmoothTick s now).reportGenerationProgress ≤ s.reportGenerationProgress + 9/5
    ∧ (s.reportGenerationRawProgress ≤ s.reportGenerationProgress →
        (reportSmoothTick s now).reportGenerationProgress
          ≤ max s.reportGenerationProgress
              (min (reportHardCeiling s) (reportTickSoftTarget s now))) := by
  have hc : reportTickCurrent s = s.reportGenerationProgress := clamp100_eq _ h0 h1
  have hsoft : s.reportGenerationProgress ≤ reportTickSoftTarget s now := by
    unfold reportTickSoftTarget
    calc s.reportGenerationProgress
        = reportTickCurrent s := hc.symm
      _ ≤ max (reportTickCurrent s)
            (getReportGenerationPhaseTargetProgress s s.reportGenerationServerState *
              reportTickPhaseRatio s now) := le_max_left _ _
      _ ≤ _ := le_max_right _ _
  unfold reportSmoothTick
  dsimp only
  rw [hc]
  split
  · exact ⟨le_refl _, hsoft, by linarith, fun _ => le_max_left _ _⟩
  · split
    · rename_i hproc hgt
      have hstep : (0:ℚ) ≤ min (7/5)
          ((min (reportHardCeiling s) (reportTickSoftTarget s now)
            - s.reportGenerationProgress) * (11/50) + 1/5) := by
        refine le_min (by norm_num) ?_
        have hgap : (1:ℚ)/10 <
            min (reportHardCeiling s) (reportTickSoftTarget s now)
              - s.reportGenerationProgress := by linarith
        linarith
      refine ⟨?_, ?_, ?_, ?_⟩
      · refine le_min (by linarith) (by linarith)
      · exact le_trans (min_le_left _ _) (min_le_right _ _)
      · refine le_trans (min_le_right _ _) ?_
        have : min ((7:ℚ)/5)
            ((min (reportHardCeiling s) (reportTickSoftTarget s now)
              - s.reportGenerationProgress) * (11/50) + 1/5) ≤ 7/5 := min_le_left _ _
        linarith
      · intro _
        exact le_trans (min_le_left _ _) (le_max_right _ _)
    · split
      · rename_i hproc hle hbgt
        refine ⟨?_, ?_, ?_, ?_⟩
        · exact le_min (by linarith) (by linarith)
        · exact le_trans (min_le_left _ _) (le_max_left _ _)
        · exact min_le_right _ _
        · intro hraw
          have hb : reportTickBackend s ≤ s.reportGenerationProgress := by
            have := clamp100_mono _ _ hraw
            unfold reportTickBackend
            calc clamp100 s.reportGenerationRawProgress
                ≤ clamp100 s.reportGenerationProgress := this
              _ = s.reportGenerationProgress := clamp100_eq _ h0 h1
          linarith
      · exact ⟨le_refl _, hsoft, by linarith, fun _ => le_max_left _ _⟩

theorem presSmoothTick_facts (t : Pres) (tnow : ℤ)
    (g0 : 0 ≤ t.presentationProgress) (g1 : t.presentationProgress ≤ 100) :
    t.presentationProgress ≤ (presSmoothTick t tnow).presentationProgress
    ∧ (presSmoothTick t tnow).presentationProgress ≤ presTickSoftTarget t tnow
    ∧ (presSmoothTick t tnow).presentationProgress ≤ t.presentationProgress + 7/5
    ∧ (t.presentationRawProgress ≤ t.presentationProgress →
        (presSmoothTick t tnow).presentationProgress
          ≤ max t.presentationProgress (min 99 (presTickSoftTarget t tnow))) := by
  have hc : clamp100 t.presentationProgress = t.presentationProgress := clamp100_eq _ g0 g1
  have hsoft : t.presentationProgress ≤ presTickSoftTarget t tnow := by
    unfold presTickSoftTarget
    dsimp only
    rw [hc]
    exact le_max_left _ _
  unfold presSmoothTick
  dsimp only
  rw [hc]
  split
  · exact ⟨le_refl _, hsoft, by linarith, fun _ => le_max_left _ _⟩
  · split
    · exact ⟨le_refl _, hsoft, by linarith, fun _ => le_max_left _ _⟩
    · split
      · rename_i hact hterm hgt
        have hstep : (0:ℚ) ≤ min (6/5)
            ((min 99 (presTickSoftTarget t tnow) - t.presentationProgress) * (11/50)
              + 9/50) := by
          refine le_min (by norm_num) ?_
          have hgap : (1:ℚ)/10 <
              min 99 (presTickSoftTarget t tnow) - t.presentationProgress := by linarith
          linarith
        refine ⟨?_, ?_, ?_, ?_⟩
        · exact le_min (by linarith) (by linarith)
        · exact le_trans (min_le_left _ _) (min_le_right _ _)
        · refine le_trans (min_le_right _ _) ?_
          have : min ((6:ℚ)/5)
              ((min 99 (presTickSoftTarget t tnow) - t.presentationProgress) * (11/50)
                + 9/50) ≤ 6/5 := min_le_left _ _
          linarith
        · intro _
          exact le_trans (min_le_left _ _) (le_max_right _ _)
      · split
        · rename_i hact hterm hle hbgt
          refine ⟨?_, ?_, ?_, ?_⟩
          · exact le_min (by linarith) (by linarith)
          · refine le_trans (min_le_left _ _) ?_
            unfold presTickSoftTarget
            dsimp only
            exact le_trans (le_max_left _ _) (le_max_right _ _)
          · exact min_le_right _ _
          · intro hraw
            have hb : clamp100 t.presentationRawProgress ≤ t.presentationProgress := by
              calc clamp100 t.presentationRawProgress
                  ≤ clamp100 t.presentationProgress := clamp100_mono _ _ hraw
                _ = t.presentationProgress := hc
            linarith
        · exact ⟨le_refl _, hsoft, by linarith, fun _ => le_max_left _ _⟩

/-- C2 (counterexample): a reachable report-generation trace in which a
smoothing tick returns a displayed value strictly above
`min(ceiling, softTarget)`: after submission and a single `generating`
poll response with raw progress 96, the displayed value is 96 while the
`generating` hard ceiling is 94, and the tick leaves it at 96 — the
poller's write-through of raw backend progress defeats the claimed tick
bound. -/
theorem tick_ceiling_counterexample :
    (let s0 := startReportGenerationFeedback ReportGen.initial "generate" "sess" 1000
     let s1 := applyReportPoll s0 cexPollGenerating 2000
     let s2 := reportSmoothTick s1 2500
     isReportGenerationProcessing s1 = true
     ∧ reportHardCeiling s1 = 94
     ∧ s1.reportGenerationProgress = 96
     ∧ min (reportHardCeiling s1) (reportTickSoftTarget s1 2500) = 94
     ∧ min (reportHardCeiling s1) (reportTickSoftTarget s1 2500)
         < s2.reportGenerationProgress) := by
  with_unfolding_all decide

/-- C2 (amended): on every smoothing tick the displayed progress never
decreases, advances by a bounded step (at most 1.8 for report ticks, 1.4
for presentation ticks), and never exceeds the tick softTarget; the phase
hard ceiling is strictly below 100; and whenever the backend raw progress
does not exceed the displayed value, a tick keeps the displayed value at
or below `max(previous, min(ceiling, softTarget))` — but the ceiling does
not bound values the poller itself wrote through from raw backend
progress. -/
theorem smooth_tick_bounds_amended (s : ReportGen) (now : ℤ) (t : Pres) (tnow : ℤ)
    (h0 : 0 ≤ s.reportGenerationProgress) (h1 : s.reportGenerationProgress ≤ 100)
    (g0 : 0 ≤ t.presentationProgress) (g1 : t.presentationProgress ≤ 100) :
    (reportHardCeiling s < 100
     ∧ s.reportGenerationProgress ≤ (reportSmoothTick s now).reportGenerationProgress
     ∧ (reportSmoothTick s now).reportGenerationProgress ≤ reportTickSoftTarget s now
     ∧ (reportSmoothTick s now).reportGenerationProgress ≤ s.reportGenerationProgress + 9/5
     ∧ (s.reportGenerationRawProgress ≤ s.reportGenerationProgress →
         (reportSmoothTick s now).reportGenerationProgress
           ≤ max s.reportGenerationProgress
               (min (reportHardCeiling s) (reportTickSoftTarget s now))))
    ∧ (t.presentationProgress ≤ (presSmoothTick t tnow).presentationProgress
     ∧ (presSmoothTick t tnow).presentationProgress ≤ presTickSoftTarget t tnow
     ∧ (presSmoothTick t tnow).presentationProgress ≤ t.presentationProgress + 7/5
     ∧ (t.presentationRawProgress ≤ t.presentationProgress →
         (presSmoothTick t tnow).presentationProgress
           ≤ max t.presentationProgress (min 99 (presTickSoftTarget t tnow)))) := by
  have hceil : reportHardCeiling s < 100 := by
    unfold reportHardCeiling
    split_ifs <;> norm_num
  obtain ⟨r1, r2, r3, r4⟩ := reportSmoothTick_facts s now h0 h1
  obtain ⟨p1, p2, p3, p4⟩ := presSmoothTick_facts t tnow g0 g1
  exact ⟨⟨hceil, r1, r2, r3, r4⟩, p1, p2, p3, p4⟩

/-- C2 (witness): the amended tick bounds at a concrete running report
state and a concrete live presentation state. -/
theorem smooth_tick_bounds_amended_witness :
    0 ≤ witStaleState.reportGenerationProgress
    ∧ witStaleState.reportGenerationProgress ≤ 100
    ∧ 0 ≤ cexLivePres.presentationProgress
    ∧ cexLivePres.presentationProgress ≤ 100
    ∧ witStaleState.reportGenerationProgress
        ≤ (reportSmoothTick witStaleState 5000).reportGenerationProgress
    ∧ cexLivePres.presentationProgress
        ≤ (presSmoothTick cexLivePres 5000).presentationProgress := by
  have h := smooth_tick_bounds_amended witStaleState 5000 cexLivePres 5000
    (by with_unfolding_all decide) (by with_unfolding_all decide)
    (by with_unfolding_all decide) (by with_unfolding_all decide)
  exact ⟨by with_unfolding_all decide, by with_unfolding_all decide,
    by with_unfolding_all decide, by with_unfolding_all decide, h.1.2.1, h.2.1⟩

theorem applyReportPoll_progress_mono (s : ReportGen) (d : ReportPollData) (now : ℤ) :
    s.reportGenerationProgress ≤ (applyReportPoll s d now).reportGenerationProgress := by
  unfold applyReportPoll
  dsimp only
  split
  · exact le_refl _
  · exact le_max_left _ _

theorem applyReportPoll_merge (s : ReportGen) (d : ReportPollData) (now : ℤ) :
    applyReportPoll s d now = s
    ∨ ((applyReportPoll s d now).reportGenerationProgress
        = max s.reportGenerationProgress (applyReportPoll s d now).reportGenerationRawProgress) := by
  unfold applyReportPoll
  dsimp only
  split
  · exact Or.inl rfl
  · exact Or.inr rfl

theorem applyReportPollRun_progress_mono (l : List (ReportPollData × ℤ)) :
    ∀ s : ReportGen,
      s.reportGenerationProgress ≤ (applyReportPollRun s l).reportGenerationProgress := by
  induction l with
  | nil => intro s; exact le_refl _
  | cons p rest ih =>
    intro s
    exact le_trans (applyReportPoll_progress_mono s p.1 p.2) (ih (applyReportPoll s p.1 p.2))

theorem estimate_progress_le (r : ReflyResult) (now : ℤ) :
    (estimatePresentationProgressFromRefly r now).progress ≤ 100 := by
  unfold estimatePresentationProgressFromRefly
  dsimp only
  split
  · split <;> norm_num
  · split
    · exact le_refl _
    · exact max_le (by norm_num) (min_le_left _ _)

theorem updatePres_progress_facts (s : Pres) (r : ReflyResult) (now : ℤ)
    (h1 : s.presentationProgress ≤ 100) (h2 : s.presentationRawProgress ≤ 100) :
    s.presentationProgress ≤ (updatePresentationProgressFromResult s r now).presentationProgress
    ∧ (updatePresentationProgressFromResult s r now).presentationProgress ≤ 100
    ∧ (updatePresentationProgressFromResult s r now).presentationRawProgress ≤ 100 := by
  have hest : ((estimatePresentationProgressFromRefly r now).progress : ℚ) ≤ 100 := by
    exact_mod_cast estimate_progress_le r now
  unfold updatePresentationProgressFromResult
  dsimp only
  split
  · exact ⟨h1, by norm_num, by norm_num⟩
  · split
    · exact ⟨le_refl _, h1, h2⟩
    · split
      · exact ⟨h1, by norm_num, by norm_num⟩
      · exact ⟨le_max_left _ _,
          max_le h1 (max_le h2 (max_le hest (by norm_num))),
          max_le h2 (max_le hest (by norm_num))⟩

theorem updatePresRun_progress_mono (l : List (ReflyResult × ℤ)) :
    ∀ s : Pres, s.presentationProgress ≤ 100 → s.presentationRawProgress ≤ 100 →
      s.presentationProgress ≤ (updatePresRun s l).presentationProgress := by
  induction l with
  | nil => intro s _ _; exact le_refl _
  | cons p rest ih =>
    intro s h1 h2
    obtain ⟨hm, hp, hr⟩ := updatePres_progress_facts s p.1 p.2 h1 h2
    exact le_trans hm (ih (updatePresentationProgressFromResult s p.1 p.2) hp hr)

/-- C3: the progress merge is monotone by construction.  For the report
poller, every applied response either is discarded unchanged or publishes
`max(previousBest, rawProgress)`; over any response sequence the published
value never decreases.  For the presentation pipeline, every status result
applied through the estimator leaves the published progress no lower than
before, and the same holds over any sequence of results. -/
theorem estimator_monotonic (s : ReportGen) (d : ReportPollData) (now : ℤ)
    (ds : List (ReportPollData × ℤ)) (t : Pres) (rs : List (ReflyResult × ℤ))
    (h1 : t.presentationProgress ≤ 100) (h2 : t.presentationRawProgress ≤ 100) :
    s.reportGenerationProgress ≤ (applyReportPoll s d now).reportGenerationProgress
    ∧ (applyReportPoll s d now = s
       ∨ (applyReportPoll s d now).reportGenerationProgress
           = max s.reportGenerationProgress
               (applyReportPoll s d now).reportGenerationRawProgress)
    ∧ s.reportGenerationProgress ≤ (applyReportPollRun s ds).reportGenerationProgress
    ∧ t.presentationProgress ≤ (updatePresRun t rs).presentationProgress :=
  ⟨applyReportPoll_progress_mono s d now,
   applyReportPoll_merge s d now,
   applyReportPollRun_progress_mono ds s,
   updatePresRun_progress_mono rs t h1 h2⟩

/-- C3 (witness): the monotonicity statement at a concrete trace: the
generating-phase response raises progress from 5 and a subsequent
presentation result sequence never lowers the presentation progress. -/
theorem estimator_monotonic_witness :
    cexLivePres.presentationProgress ≤ 100
    ∧ cexLivePres.presentationRawProgress ≤ 100
    ∧ (witStaleState.reportGenerationProgress
        ≤ (applyReportPoll witStaleState cexPollGenerating 2000).reportGenerationProgress
      ∧ (applyReportPoll witStaleState cexPollGenerating 2000 = witStaleState
         ∨ (applyReportPoll witStaleState cexPollGenerating 2000).reportGenerationProgress
             = max witStaleState.reportGenerationProgress
                 (applyReportPoll witStaleState cexPollGenerating 2000).reportGenerationRawProgress)
      ∧ witStaleState.reportGenerationProgress
        ≤ (applyReportPollRun witStaleState
            [(cexPollGenerating, 2000)]).reportGenerationProgress
      ∧ cexLivePres.presentationProgress
        ≤ (updatePresRun cexLivePres [(cexRunningResult, 3000)]).presentationProgress) :=
  ⟨by with_unfolding_all decide, by with_unfolding_all decide,
   estimator_monotonic witStaleState cexPollGenerating 2000 [(cexPollGenerating, 2000)]
     cexLivePres [(cexRunningResult, 3000)]
     (by with_unfolding_all decide) (by with_unfolding_all decide)⟩

/-! ## C5: recovery seeding of displayed progress -/

/-- C5 (counterexample): on view entry with an in-flight job whose
recovery snapshot makes the estimator report 96, the immediately published
displayed progress is the fixed floor 5, not the estimator output. -/
theorem recovery_seed_counterexample :
    (estimatePresentationProgressFromRefly cexRecoveryStatus 1000).progress = 96
    ∧ (applyPresentationStatus Pres.initial cexRecoveryStatus "report.md" 1000).presentationProgress = 5
    ∧ (applyPresentationStatus Pres.initial cexRecoveryStatus "report.md" 1000).presentationState = "executing"
    ∧ (applyPresentationStatus Pres.initial cexRecoveryStatus "report.md" 1000).presentationPolling = true := by
  with_unfolding_all decide

/-- C5 (amended): recovery with an in-flight job does transition directly
to `executing` and reattaches the poller and the smoothing scheduler, but
the displayed progress is seeded at the fixed submission floor 5 — not
from the estimator — because `updatePresentationProgressFromResult` skips
its progress writes while neither `generatingSlides` nor
`presentationPolling` is set, and `startPresentationPolling` first resets
all progress fields via `stopPresentationPolling` and then floors the
displayed value at 5; the estimator-derived stage index and status are
wiped back to 0/`pending` the same way.  The estimator output first
affects the display when the first poll response is applied. -/
theorem recovery_seed_amended (s : Pres) (st : ReflyResult) (sel : String) (now : ℤ)
    (hp : s.presentationPolling = false)
    (hproc : st.processing = true) (hexec : st.execution_id ≠ "")
    (hpdf : st.pdf_url = "") (hsel : jsTrim sel ≠ "") :
    (applyPresentationStatus s st sel now).presentationPolling = true
    ∧ (applyPresentationStatus s st sel now).presentationPollTimer = true
    ∧ (applyPresentationStatus s st sel now).presentationSmoothTimer = true
    ∧ (applyPresentationStatus s st sel now).presentationState = "executing"
    ∧ (applyPresentationStatus s st sel now).presentationProgress = 5
    ∧ (applyPresentationStatus s st sel now).presentationRawProgress = 5
    ∧ (applyPresentationStatus s st sel now).presentationStageIndex = 0
    ∧ (applyPresentationStatus s st sel now).presentationStageStatus = "pending" := by
  have hmax : max (0:ℚ) 5 = 5 := by norm_num
  unfold applyPresentationStatus startPresentationPollingInit stopPresentationPolling
  dsimp only
  simp [hproc, hexec, hpdf, hsel, updatePres_polling_eq, hp, hmax]

/-- C5 (witness): the amended recovery behaviour at the concrete recovery
snapshot whose estimator output is 96. -/
theorem recovery_seed_amended_witness :
    Pres.initial.presentationPolling = false
    ∧ cexRecoveryStatus.processing = true
    ∧ cexRecoveryStatus.execution_id ≠ ""
    ∧ jsTrim "report.md" ≠ ""
    ∧ ((applyPresentationStatus Pres.initial cexRecoveryStatus "report.md" 1000).presentationPolling = true
      ∧ (applyPresentationStatus Pres.initial cexRecoveryStatus "report.md" 1000).presentationPollTimer = true
      ∧ (applyPresentationStatus Pres.initial cexRecoveryStatus "report.md" 1000).presentationSmoothTimer = true
      ∧ (applyPresentationStatus Pres.initial cexRecoveryStatus "report.md" 1000).presentationState = "executing"
      ∧ (applyPresentationStatus Pres.initial cexRecoveryStatus "report.md" 1000).presentationProgress = 5
      ∧ (applyPresentationStatus Pres.initial cexRecoveryStatus "report.md" 1000).presentationRawProgress = 5
      ∧ (applyPresentationStatus Pres.initial cexRecoveryStatus "report.md" 1000).presentationStageIndex = 0
      ∧ (applyPresentationStatus Pres.initial cexRecoveryStatus "report.md" 1000).presentationStageStatus = "pending") :=
  ⟨rfl, rfl, by decide, by decide,
    recovery_seed_amended Pres.initial cexRecoveryStatus "report.md" 1000
      rfl rfl (by decide) rfl (by decide)⟩

/-! ## C9: determinism of the estimator -/

theorem nodeElapsed_time_indep (n : ReflyNode) (h : nodeTimeAnchored n) (t1 t2 : ℤ) :
    getPresentationNodeElapsedMs n.startTime n.endTime t1
      = getPresentationNodeElapsedMs n.startTime n.endTime t2 := by
  rcases h with h | h <;> simp [getPresentationNodeElapsedMs, h]

theorem applyReflyNode_time_indep (sd : List StageData) (i : ℕ) (n : ReflyNode)
    (h : nodeTimeAnchored n) (t1 t2 : ℤ) :
    applyReflyNode t1 sd i n = applyReflyNode t2 sd i n := by
  unfold applyReflyNode
  rw [nodeElapsed_time_indep n h t1 t2]

theorem applyReflyOutputs_time_indep (t1 t2 : ℤ) :
    ∀ (l : List (ℕ × ReflyNode)) (sd : List StageData),
      (∀ p ∈ l, nodeTimeAnchored p.2) →
      applyReflyOutputs t1 sd l = applyReflyOutputs t2 sd l
  | [], sd, _ => rfl
  | (i, n) :: rest, sd, h => by
    have hp : nodeTimeAnchored n := h (i, n) (List.mem_cons_self _ _)
    have hrest : ∀ q ∈ rest, nodeTimeAnchored q.2 :=
      fun q hq => h q (List.mem_cons_of_mem _ hq)
    show applyReflyOutputs t1 (applyReflyNode t1 sd i n) rest
        = applyReflyOutputs t2 (applyReflyNode t2 sd i n) rest
    rw [applyReflyNode_time_indep sd i n hp t1 t2]
    exact applyReflyOutputs_time_indep t1 t2 rest (applyReflyNode t2 sd i n) hrest

theorem snd_mem_of_mem_enumFrom {α : Type} :
    ∀ (l : List α) (k : ℕ) (p : ℕ × α), p ∈ l.enumFrom k → p.2 ∈ l
  | [], _, _, hp => absurd hp (List.not_mem_nil _)
  | a :: as, k, p, hp => by
    rcases List.mem_cons.mp hp with h | h
    · rw [h]
      exact List.mem_cons_self _ _
    · exact List.mem_cons_of_mem _ (snd_mem_of_mem_enumFrom as (k + 1) p h)

/-- C9 (counterexample): the estimator output depends on the wall clock:
for a running node with a start timestamp but no end timestamp, two
evaluations of `estimatePresentationProgressFromRefly` on the same result
value at different instants return different outputs (progress 2 at the
start instant, 17 two minutes later). -/
theorem estimator_wallclock_counterexample :
    estimatePresentationProgressFromRefly cexTimedResult 1000
      ≠ estimatePresentationProgressFromRefly cexTimedResult 121000
    ∧ (estimatePresentationProgressFromRefly cexTimedResult 1000).progress = 2
    ∧ (estimatePresentationProgressFromRefly cexTimedResult 121000).progress = 17 := by
  with_unfolding_all decide

/-- C9 (amended): the estimator is a pure function of the status result
and the current wall-clock instant; its only time dependence is the
`Date.now()` anchor used for nodes lacking a parseable end timestamp.
When every output node either lacks a parseable start timestamp or
carries a parseable end timestamp, two evaluations on the same result at
any two instants return identical outputs. -/
theorem estimator_time_independence_amended (r : ReflyResult) (t1 t2 : ℤ)
    (h : ∀ n ∈ r.outputs, nodeTimeAnchored n) :
    estimatePresentationProgressFromRefly r t1 = estimatePresentationProgressFromRefly r t2 := by
  have henum : ∀ p ∈ r.outputs.enum, nodeTimeAnchored p.2 :=
    fun p hp => h p.2 (snd_mem_of_mem_enumFrom r.outputs 0 p hp)
  have hsd := applyReflyOutputs_time_indep t1 t2 r.outputs.enum initialStageData henum
  unfold estimatePresentationProgressFromRefly
  rw [hsd]

/-- C9 (witness): the amended determinism statement at a concrete result
whose single node carries an end timestamp. -/
theorem estimator_time_independence_amended_witness :
    (∀ n ∈ witAnchoredResult.outputs, nodeTimeAnchored n)
    ∧ estimatePresentationProgressFromRefly witAnchoredResult 1000
        = estimatePresentationProgressFromRefly witAnchoredResult 999999 :=
  ⟨by decide,
    estimator_time_independence_amended witAnchoredResult 1000 999999 (by decide)⟩

/-! ## C4: correlation isolation of poll responses -/

/-- C4: a poll response whose execution identifier or report name no longer
matches the live pair recorded at job start leaves the entire published
presentation progress state unchanged. -/
theorem poll_correlation_isolation (s : Pres) (curExec curReport : String)
    (r : ReflyResult) (now : ℤ)
    (h : s.presentationExecutionId ≠ curExec ∨ s.presentationPollingReportName ≠ curReport) :
    applyPresPollResult s curExec curReport r now = s := by
  rcases h with h | h <;> simp [applyPresPollResult, h]

/-- C4 (witness): a live state for execution `E1` discards a response
correlated to `E2`. -/
theorem poll_correlation_isolation_witness :
    cexLivePres.presentationExecutionId ≠ "E2"
    ∧ applyPresPollResult cexLivePres "E2" "r.md" cexRunningResult 0 = cexLivePres :=
  ⟨by decide,
    poll_correlation_isolation cexLivePres "E2" "r.md" cexRunningResult 0 (Or.inl (by decide))⟩

/-! ## C6: cancellation finality -/

/-- C6 (counterexample): a user cancellation whose abort request fails
leaves the published state entirely unchanged: starting from a live
polling state (report name `r.md`, so the guard does not apply), the
cancellation with a failed abort keeps the lifecycle at `executing` — not
`stopped` — with displayed progress still 50 and polling and both timers
live, refuting "after a user cancellation, the lifecycle state is
stopped, the scheduler and poller are stopped, and displayed progress is
reset to 0". -/
theorem abort_failure_cancellation_counterexample :
    jsTrim cexLivePres.presentationPollingReportName ≠ ""
    ∧ stopPresentationGeneration cexLivePres "sel.md" false = cexLivePres
    ∧ (stopPresentationGeneration cexLivePres "sel.md" false).presentationState = "executing"
    ∧ (stopPresentationGeneration cexLivePres "sel.md" false).presentationState ≠ "stopped"
    ∧ (stopPresentationGeneration cexLivePres "sel.md" false).presentationProgress = 50
    ∧ (stopPresentationGeneration cexLivePres "sel.md" false).presentationProgress ≠ 0
    ∧ (stopPresentationGeneration cexLivePres "sel.md" false).presentationPolling = true
    ∧ (stopPresentationGeneration cexLivePres "sel.md" false).presentationSmoothTimer = true := by
  with_unfolding_all decide

/-- C6 (amended): after a user cancellation whose abort request succeeds,
the lifecycle state is `stopped`, both timers and the poller are stopped,
the displayed progress is reset to 0, and from then on no late-arriving
poll response (for any execution identifier and report name) can change
the published progress state away from `stopped`; but when the abort
request fails, the `catch` path leaves the published state entirely
unchanged — polling, timers and progress stay live — so the local reset
is not performed "regardless of whether the backend confirms the abort". -/
theorem cancellation_finality_amended (s : Pres) (selectedReport : String)
    (curExec curReport : String) (r : ReflyResult) (now : ℤ)
    (htarget : jsTrim (if s.presentationPollingReportName ≠ ""
      then s.presentationPollingReportName else selectedReport) ≠ "") :
    (stopPresentationGeneration s selectedReport true).presentationState = "stopped"
    ∧ (stopPresentationGeneration s selectedReport true).presentationProgress = 0
    ∧ (stopPresentationGeneration s selectedReport true).presentationRawProgress = 0
    ∧ (stopPresentationGeneration s selectedReport true).presentationPolling = false
    ∧ (stopPresentationGeneration s selectedReport true).presentationPollTimer = false
    ∧ (stopPresentationGeneration s selectedReport true).presentationSmoothTimer = false
    ∧ applyPresPollResult (stopPresentationGeneration s selectedReport true)
        curExec curReport r now
        = stopPresentationGeneration s selectedReport true
    ∧ stopPresentationGeneration s selectedReport false = s := by
  have ht : jsTrim (if s.presentationPollingReportName = ""
      then selectedReport else s.presentationPollingReportName) ≠ "" := by
    simpa using htarget
  refine ⟨?_, ?_, ?_, ?_, ?_, ?_, ?_, ?_⟩ <;>
    simp [stopPresentationGeneration, stopPresentationPolling, applyPresPollResult, ht]

/-- C6 (witness): the amended cancellation behaviour at a concrete live
polling state: a successful abort stops and resets everything and later
poll responses are inert, while a failed abort changes nothing. -/
theorem cancellation_finality_amended_witness :
    jsTrim (if cexLivePres.presentationPollingReportName ≠ ""
      then cexLivePres.presentationPollingReportName else "sel.md") ≠ ""
    ∧ (stopPresentationGeneration cexLivePres "sel.md" true).presentationState = "stopped"
    ∧ (stopPresentationGeneration cexLivePres "sel.md" true).presentationProgress = 0
    ∧ applyPresPollResult (stopPresentationGeneration cexLivePres "sel.md" true)
        "E1" "r.md" cexRunningResult 7000
        = stopPresentationGeneration cexLivePres "sel.md" true
    ∧ stopPresentationGeneration cexLivePres "sel.md" false = cexLivePres := by
  have h := cancellation_finality_amended cexLivePres "sel.md" "E1" "r.md"
    cexRunningResult 7000 (by decide)
  exact ⟨by decide, h.1, h.2.1, h.2.2.2.2.2.2.1, h.2.2.2.2.2.2.2⟩

/-! ## C8: per-phase local progress of the estimator -/

/-- C8 (counterexample): a failed node with zero elapsed time yields local
progress 60 (the `Math.round(ratio * 100) || 60` fallback), not the lower
clamp bound 25 the spec states. -/
theorem failed_stage_progress_counterexample :
    reflyStageProgress "failed" 0 260000 = 60
    ∧ reflyStageProgress "failed" 0 260000 ≠ 25 := by
  with_unfolding_all decide

/-- C8 (amended): the per-phase local progress equals the spec formula with
the failed branch amended to `clamp(25, r, 96)` where `r` falls back to 60
whenever `round(elapsed/expected × 100)` is zero; in particular a failed
node with zero elapsed time yields 60. -/
theorem stage_progress_formula_amended (status : String) (e x : ℤ) :
    reflyStageProgress status e x = specStageProgress status e x
    ∧ reflyStageProgress "failed" 0 x = 60 := by
  constructor
  · unfold reflyStageProgress specStageProgress clampInt
    dsimp only
    split_ifs <;> first
      | rfl
      | (simp only [min_def, max_def]; split_ifs <;> omega)
  · have h1 : jsRound (0 : ℚ) = 0 := by with_unfolding_all decide
    simp [reflyStageProgress, h1]

/-! ## C7: poll cadence, attempt budget and exhaustion behaviour -/

theorem applyPresPollResult_polling (s : Pres) (c1 c2 : String) (r : ReflyResult)
    (now : ℤ) (hpdf : r.pdf_url = "") :
    (applyPresPollResult s c1 c2 r now).presentationPolling = s.presentationPolling := by
  unfold applyPresPollResult
  dsimp only
  split
  · rfl
  · simp [hpdf, updatePres_polling_eq]

theorem presPollRun_notice_le (curE curR : String) :
    ∀ (l : List (Option ReflyResult × ℤ)) (s : Pres) (lp : PollLoop),
      (presPollRun s lp curE curR l).2.2 ≤ if lp.timeoutNotified then 0 else 1
  | [], s, lp => by
    unfold presPollRun
    dsimp only
    split <;> norm_num
  | (resp, now) :: rest, s, lp => by
    have ih := presPollRun_notice_le curE curR rest
    unfold presPollRun presPollOnce
    dsimp only
    split
    · have := ih s lp
      dsimp only
      split at this <;> simp_all
    · cases resp with
      | none =>
        have := ih s { lp with attempts := lp.attempts + 1 }
        dsimp only at this ⊢
        split at this <;> simp_all
      | some r =>
        dsimp only
        split
        · have := ih (applyPresPollResult s curE curR r now)
            { lp with attempts := lp.attempts + 1 }
          dsimp only at this ⊢
          split at this <;> simp_all
        · split
          · rename_i hcond
            have hfalse : lp.timeoutNotified = false := hcond.2
            have hx := ih (applyPresPollResult s curE curR r now)
              { attempts := lp.attempts + 1, timeoutNotified := true }
            rw [hfalse]
            simp_all
          · have := ih (applyPresPollResult s curE curR r now)
              { lp with attempts := lp.attempts + 1 }
            dsimp only at this ⊢
            split at this <;> simp_all

/-- C7 (counterexample): with the attempt budget already reached
(`attempts = 200 = presMaxAttempts`) and the timeout notice already shown,
the next `pollOnce` invocation still issues a status request, increments
the counter to 201 and leaves polling live — the poller does not
self-terminate on budget exhaustion. -/
theorem poll_budget_counterexample :
    presMaxAttempts = 200
    ∧ (presPollOnce cexLivePres { attempts := 200, timeoutNotified := true } "E1" "r.md"
        (some cexRunningResult) 0).issuedRequest = true
    ∧ (presPollOnce cexLivePres { attempts := 200, timeoutNotified := true } "E1" "r.md"
        (some cexRunningResult) 0).loop.attempts = 201
    ∧ (presPollOnce cexLivePres { attempts := 200, timeoutNotified := true } "E1" "r.md"
        (some cexRunningResult) 0).pres.presentationPolling = true := by
  with_unfolding_all decide

/-- C7 (amended): the presentation poller polls at a fixed 6-second
cadence with attempt budget 200; over any run it emits the "still
processing" notice at most once, and reaching the budget does not change
the published state: the poller keeps the polling flag (does not
self-terminate) for non-terminal responses, and the published state after
a step does not depend on the attempt bookkeeping at all — in particular
exhaustion never transitions the lifecycle to an error state. -/
theorem poll_exhaustion_amended (s : Pres) (lp lp2 : PollLoop) (curE curR : String)
    (l : List (Option ReflyResult × ℤ)) (r : ReflyResult) (now : ℤ)
    (hn : lp.timeoutNotified = false) (hpdf : r.pdf_url = "") :
    presPollIntervalMs = 6000
    ∧ presMaxAttempts = 200
    ∧ (presPollRun s lp curE curR l).2.2 ≤ 1
    ∧ (presPollOnce s lp curE curR (some r) now).pres.presentationPolling
        = s.presentationPolling
    ∧ (presPollOnce s lp curE curR (some r) now).pres
        = (presPollOnce s lp2 curE curR (some r) now).pres := by
  refine ⟨rfl, rfl, ?_, ?_, ?_⟩
  · have h := presPollRun_notice_le curE curR l s lp
    rw [hn] at h
    simpa using h
  · unfold presPollOnce
    dsimp only
    split
    · rfl
    · split
      · rename_i h
        exact absurd hpdf h
      · split
        · exact applyPresPollResult_polling s curE curR r now hpdf
        · exact applyPresPollResult_polling s curE curR r now hpdf
  · unfold presPollOnce
    dsimp only
    split_ifs <;> rfl

/-- C7 (witness): the amended exhaustion behaviour at a concrete live
state and a concrete two-response run. -/
theorem poll_exhaustion_amended_witness :
    cexRunningResult.pdf_url = ""
    ∧ (presPollRun cexLivePres { attempts := 0, timeoutNotified := false } "E1" "r.md"
        [(some cexRunningResult, 0), (none, 6000)]).2.2 ≤ 1
    ∧ (presPollOnce cexLivePres { attempts := 0, timeoutNotified := false } "E1" "r.md"
        (some cexRunningResult) 0).pres.presentationPolling
        = cexLivePres.presentationPolling := by
  have h := poll_exhaustion_amended cexLivePres
    { attempts := 0, timeoutNotified := false } { attempts := 5, timeoutNotified := true }
    "E1" "r.md" [(some cexRunningResult, 0), (none, 6000)] cexRunningResult 0 rfl (by decide)
  exact ⟨by decide, h.2.2.1, h.2.2.2.1⟩

/-! ## C10: stale-response filter on report polling -/

/-- C10: a report poll response whose parsed `updated_at` timestamp is more
than 500 ms earlier than the recorded request start time is ignored
entirely: no `reportGeneration*` field changes. -/
theorem stale_response_filter (s : ReportGen) (d : ReportPollData) (now : ℤ)
    (hts : parseValidTimestamp d.updated_at ≠ 0)
    (hreq : s.reportGenerationRequestStartedAt ≠ 0)
    (hstale : parseValidTimestamp d.updated_at + 500 < s.reportGenerationRequestStartedAt) :
    applyReportPoll s d now = s := by
  simp [applyReportPoll, hts, hreq, hstale]

/-- C10 (witness): a response stamped at 1000 against a request started at
10000 is discarded. -/
theorem stale_response_filter_witness :
    parseValidTimestamp witStaleData.updated_at ≠ 0
    ∧ witStaleState.reportGenerationRequestStartedAt ≠ 0
    ∧ parseValidTimestamp witStaleData.updated_at + 500
        < witStaleState.reportGenerationRequestStartedAt
    ∧ applyReportPoll witStaleState witStaleData 99999 = witStaleState :=
  ⟨by decide, by decide, by decide,
    stale_response_filter witStaleState witStaleData 99999 (by decide) (by decide) (by decide)⟩

end DeepVision
